import Mathlib

/-!
Shallow embedding of the `retro_games` pong implementation
(`src/retro_games/game_components.py` and `src/retro_games/pong.py`).

Coordinates are `Int` (Python ints may go negative before the boundary
guards fire); footprint sizes are `Nat` (the program only ever uses
positive widths/heights); the grid is a `List (List MapEntity)` exactly
like the Python list-of-lists; score counters are `Nat` (they start at 0
and are only ever incremented).
-/

namespace RetroGames

/-- `CollisionMap.MapEntity` enum from `game_components.py`. -/
inductive MapEntity where
  | EMPTY
  | PADDLE
  | BALL
  | BOARDER
  | TOP_WALL
  | BOTTOM_WALL
  | LEFT_WALL
  | RIGHT_WALL
deriving DecidableEq, Repr

/-- The `CollisionMap` class: dimensions plus the grid of markers. -/
structure CollisionMap where
  max_y : Nat
  max_x : Nat
  map : List (List MapEntity)
deriving DecidableEq, Repr

/-- `CollisionMap.create_collision_map`: a `max_y × max_x` grid of `EMPTY`. -/
def create_collision_map (max_y max_x : Nat) : List (List MapEntity) :=
  List.replicate max_y (List.replicate max_x MapEntity.EMPTY)

/-- `CollisionMap.__init__`. -/
def CollisionMap.mk' (max_y max_x : Nat) : CollisionMap :=
  ⟨max_y, max_x, create_collision_map max_y max_x⟩

/-- Row `r` of the grid (`self.map[r]`). -/
def getRow (cm : CollisionMap) (r : Nat) : List MapEntity :=
  cm.map.getD r []

/-- Read the marker at row `r`, column `c` (`self.map[r][c]`). -/
def getCell (cm : CollisionMap) (r c : Nat) : MapEntity :=
  (cm.map.getD r []).getD c MapEntity.EMPTY

/-- Write marker `v` at row `r`, column `c` (`self.map[r][c] = v`). -/
def setCell (cm : CollisionMap) (r c : Nat) (v : MapEntity) : CollisionMap :=
  { cm with map := cm.map.set r ((cm.map.getD r []).set c v) }

/-- The grid really is `max_y` rows of `max_x` columns. -/
def WellFormed (cm : CollisionMap) : Prop :=
  cm.map.length = cm.max_y ∧ ∀ row ∈ cm.map, row.length = cm.max_x

instance (cm : CollisionMap) : Decidable (WellFormed cm) := by
  unfold WellFormed; infer_instance

/-- The fields the abstract `Collidable` class declares. -/
structure Collidable where
  x : Int
  y : Int
  width : Nat
  height : Nat
  new_x : Int
  new_y : Int
  map_entity_type : MapEntity
deriving DecidableEq, Repr

/-- `CollisionMap.check_collision`, line by line: four short-circuiting
boundary guards, then the union over each row slice of the tentative
footprint. -/
def check_collision (cm : CollisionMap) (e : Collidable) : Finset MapEntity :=
  if e.new_x < 0 + 1 then {MapEntity.LEFT_WALL}
  else if (cm.max_x : Int) + 1 - (e.width : Int) ≤ e.new_x then {MapEntity.RIGHT_WALL}
  else if e.new_y < 0 + 1 then {MapEntity.TOP_WALL}
  else if (cm.max_y : Int) - (e.height : Int) ≤ e.new_y then {MapEntity.BOTTOM_WALL}
  else
    (List.range e.height).foldl
      (fun (acc : Finset MapEntity) (i : Nat) =>
        acc ∪ (((getRow cm (e.new_y + (i : Int)).toNat).drop e.new_x.toNat).take
          e.width).toFinset)
      ∅

/-- `Paddle.Direction` enum from `pong.py`. -/
inductive Direction where
  | UP
  | DOWN
deriving DecidableEq, Repr

/-- `Direction.value`: UP = -1, DOWN = 1. -/
def Direction.value : Direction → Int
  | .UP => -1
  | .DOWN => 1

/-- A `Paddle` (width is 1 and `new_x = x` in every paddle the program
builds, but the fields are kept as in the class). -/
structure Paddle where
  x : Int
  y : Int
  new_x : Int
  new_y : Int
  width : Nat
  height : Nat
deriving DecidableEq, Repr

/-- View a paddle through the `Collidable` interface
(`map_entity_type = PADDLE`). -/
def Paddle.toCollidable (p : Paddle) : Collidable :=
  ⟨p.x, p.y, p.width, p.height, p.new_x, p.new_y, MapEntity.PADDLE⟩

/-- `Paddle.__init__`: fixed column `x`, width 1, vertically centred
(the `height` parameter defaults to 4 in the source). -/
def Paddle.init (x : Int) (max_y : Nat) (height : Nat) : Paddle :=
  { x := x, new_x := x, height := height, width := 1
    y := ((max_y : Int) - (height : Int)) / 2, new_y := 0 }

/-- `Paddle.update_map`: clear the old footprint column, write the new
one, and commit `y := new_y` (the paddle's `x` is never reassigned). -/
def Paddle.update_map (p : Paddle) (cm : CollisionMap) : Paddle × CollisionMap :=
  let cm1 := (List.range p.height).foldl
    (fun (acc : CollisionMap) (i : Nat) =>
      setCell acc (p.y + (i : Int)).toNat p.x.toNat MapEntity.EMPTY) cm
  let cm2 := (List.range p.height).foldl
    (fun (acc : CollisionMap) (i : Nat) =>
      setCell acc (p.new_y + (i : Int)).toNat p.new_x.toNat MapEntity.PADDLE) cm1
  ({ p with y := p.new_y }, cm2)

/-- The first line of `Paddle.move`:
`self.new_y = self.y + direction.value` (tentative column untouched). -/
def paddle_tentative (p : Paddle) (d : Direction) : Paddle :=
  { p with new_y := p.y + d.value }

/-- `Paddle.move`: tentative row = committed row + direction offset,
then dispatch on the collision-query result exactly as in the source
(`{EMPTY, PADDLE}` or `{EMPTY}` accepted; `{BOTTOM_WALL}` or
`{TOP_WALL}` silently rejected; anything else raises `ValueError`). -/
def Paddle.move (p : Paddle) (cm : CollisionMap) (d : Direction) :
    Except String (Paddle × CollisionMap) :=
  if check_collision cm (paddle_tentative p d).toCollidable =
       {MapEntity.EMPTY, MapEntity.PADDLE} ∨
     check_collision cm (paddle_tentative p d).toCollidable = {MapEntity.EMPTY} then
    .ok ((paddle_tentative p d).update_map cm)
  else if check_collision cm (paddle_tentative p d).toCollidable = {MapEntity.BOTTOM_WALL} ∨
      check_collision cm (paddle_tentative p d).toCollidable = {MapEntity.TOP_WALL} then
    .ok (paddle_tentative p d, cm)
  else
    .error "Unexpected collision"

/-- `Score`: the two per-side counters (`player_1_score` is drawn at the
left offset and bound to the left paddle's keys; `player_2_score` at the
right offset). -/
structure Score where
  player_1_score : Nat
  player_2_score : Nat
deriving DecidableEq, Repr

/-- A `Ball`. `max_y`/`max_x` are the screen dimensions the instance
captured at construction. -/
structure Ball where
  max_y : Nat
  max_x : Nat
  x : Int
  y : Int
  new_x : Int
  new_y : Int
  width : Nat
  height : Nat
  dx : Int
  dy : Int
deriving DecidableEq, Repr

/-- View a ball through the `Collidable` interface
(`map_entity_type = BALL`). -/
def Ball.toCollidable (b : Ball) : Collidable :=
  ⟨b.x, b.y, b.width, b.height, b.new_x, b.new_y, MapEntity.BALL⟩

/-- `Ball.reset`: re-centre at `(max_x // 2, max_y // 2)`, footprint
1×1, direction components from `choice([-1, 1])` — the two random draws
are passed in as `rdx`, `rdy`.  Note: `reset` does not touch the
collision map. -/
def Ball.reset (b : Ball) (rdx rdy : Int) : Ball :=
  { b with x := ((b.max_x / 2 : Nat) : Int), y := ((b.max_y / 2 : Nat) : Int)
           width := 1, height := 1, dx := rdx, dy := rdy }

/-- `Ball.update_map`: clear the old cell, commit `x := new_x`,
`y := new_y`, write `BALL` at the new cell. -/
def Ball.update_map (b : Ball) (cm : CollisionMap) : Ball × CollisionMap :=
  let cm1 := setCell cm b.y.toNat b.x.toNat MapEntity.EMPTY
  let b1 := { b with x := b.new_x, y := b.new_y }
  let cm2 := setCell cm1 b.new_y.toNat b.new_x.toNat MapEntity.BALL
  (b1, cm2)

/-- The dispatch on the collision-query result inside `Ball.move`, taken
branch for branch from the source: `{EMPTY}` commits; `{BOTTOM_WALL}` or
`{TOP_WALL}` inverts `dy`; `{PADDLE}` inverts `dx`; `{LEFT_WALL}`
increments `player_1_score`, clears the ball's committed cell and resets;
`{RIGHT_WALL}` increments `player_2_score`, clears and resets; anything
else raises `ValueError`. -/
def ball_handle_collision (collision : Finset MapEntity) (b : Ball)
    (cm : CollisionMap) (score : Score) (rdx rdy : Int) :
    Except String (Ball × CollisionMap × Score) :=
  if collision = {MapEntity.EMPTY} then
    let r := b.update_map cm
    .ok (r.1, r.2, score)
  else if collision = {MapEntity.BOTTOM_WALL} ∨ collision = {MapEntity.TOP_WALL} then
    .ok ({ b with dy := -b.dy }, cm, score)
  else if collision = {MapEntity.PADDLE} then
    .ok ({ b with dx := -b.dx }, cm, score)
  else if collision = {MapEntity.LEFT_WALL} then
    let cm1 := setCell cm b.y.toNat b.x.toNat MapEntity.EMPTY
    .ok (b.reset rdx rdy, cm1, { score with player_1_score := score.player_1_score + 1 })
  else if collision = {MapEntity.RIGHT_WALL} then
    let cm1 := setCell cm b.y.toNat b.x.toNat MapEntity.EMPTY
    .ok (b.reset rdx rdy, cm1, { score with player_2_score := score.player_2_score + 1 })
  else
    .error "Unexpected collision"

/-- The first two lines of `Ball.move`: tentative position = committed
position + direction vector, each axis independently. -/
def ball_tentative (b : Ball) : Ball :=
  { b with new_x := b.x + b.dx, new_y := b.y + b.dy }

/-- `Ball.move`: tentative position = committed position + direction,
then query and dispatch. -/
def Ball.move (b : Ball) (cm : CollisionMap) (score : Score) (rdx rdy : Int) :
    Except String (Ball × CollisionMap × Score) :=
  ball_handle_collision (check_collision cm (ball_tentative b).toCollidable)
    (ball_tentative b) cm score rdx rdy

/-- The full mutable state the pong orchestrator owns. -/
structure GState where
  cm : CollisionMap
  left_paddle : Paddle
  right_paddle : Paddle
  ball : Ball
  score : Score
deriving DecidableEq, Repr

/-- One observable game operation: a key-driven paddle move, one ball
tick (with the two random draws a reset would consume), a bare reset, or
a render (which reads but never writes simulation state). -/
inductive GameOp where
  | moveLeftPaddle (d : Direction)
  | moveRightPaddle (d : Direction)
  | moveBall (rdx rdy : Int)
  | resetBall (rdx rdy : Int)
  | render
deriving DecidableEq, Repr

/-- One step of the orchestrator.  A raised `ValueError` terminates the
process, so the erroring step leaves the state as it was. -/
def gameStep (s : GState) : GameOp → GState
  | .moveLeftPaddle d =>
      match s.left_paddle.move s.cm d with
      | .ok r => { s with left_paddle := r.1, cm := r.2 }
      | .error _ => s
  | .moveRightPaddle d =>
      match s.right_paddle.move s.cm d with
      | .ok r => { s with right_paddle := r.1, cm := r.2 }
      | .error _ => s
  | .moveBall rdx rdy =>
      match s.ball.move s.cm s.score rdx rdy with
      | .ok r => { s with ball := r.1, cm := r.2.1, score := r.2.2 }
      | .error _ => s
  | .resetBall rdx rdy => { s with ball := s.ball.reset rdx rdy }
  | .render => s

/-- Run an arbitrary interleaving of game operations. -/
def runOps (s : GState) (ops : List GameOp) : GState :=
  ops.foldl gameStep s

/-- Modelled from the spec: the source under `src/` contains no
autonomous-paddle logic at all — `Pong.update` only moves the ball and
both paddles are purely key-driven — so the AI decision rule is taken
from the spec's words: the paddle reassesses only when the ball's
horizontal distance is within `board_width/12`, and then steps Down if
its vertical centre is above the ball's row, Up if below, nowhere if
exactly centred. -/
def ai_paddle_direction (board_width : Nat) (p : Paddle) (b : Ball) : Option Direction :=
  if ((board_width / 12 : Nat) : Int) < |b.x - p.x| then none
  else
    let center := p.y + ((p.height : Int)) / 2
    if center < b.y then some Direction.DOWN
    else if b.y < center then some Direction.UP
    else none

/-- Modelled from the spec: the per-tick AI paddle step the orchestrator
would run after the ball moves — no decision means no move at all. -/
def ai_paddle_tick (board_width : Nat) (cm : CollisionMap) (p : Paddle) (b : Ball) :
    Paddle × CollisionMap :=
  match ai_paddle_direction board_width p b with
  | none => (p, cm)
  | some d =>
      match p.move cm d with
      | .ok r => r
      | .error _ => (p, cm)

/-! ### Helper lemmas about the grid -/

/-- A well-formed grid's rows all have length `max_x`. -/
lemma getRow_length (cm : CollisionMap) (hwf : WellFormed cm) (r : Nat)
    (hr : r < cm.map.length) : (getRow cm r).length = cm.max_x := by
  have hrow : cm.map.getD r [] = cm.map[r] := by
    simp [List.getD_eq_getElem?_getD, List.getElem?_eq_getElem hr]
  rw [getRow, hrow]
  exact hwf.2 _ (cm.map.getElem_mem hr)

/-- Folding `∪` over `List.range n` is a `Finset.biUnion`. -/
lemma foldl_union_range {α : Type} [DecidableEq α] (f : Nat → Finset α)
    (s : Finset α) (n : Nat) :
    (List.range n).foldl (fun acc i => acc ∪ f i) s = s ∪ (Finset.range n).biUnion f := by
  induction n with
  | zero => simp
  | succ n ih =>
      rw [List.range_succ, List.foldl_append, List.foldl_cons, List.foldl_nil, ih,
        Finset.range_succ, Finset.biUnion_insert, Finset.union_assoc,
        Finset.union_comm ((Finset.range n).biUnion f) (f n)]

/-- A `drop`/`take` slice of a list is the elementwise map of `getD`
over the slice's index range. -/
lemma drop_take_eq_map {α : Type} (row : List α) (d : α) (a w : Nat)
    (h : a + w ≤ row.length) :
    (row.drop a).take w = (List.range w).map (fun j => row.getD (a + j) d) := by
  apply List.ext_getElem
  · simp
    omega
  · intro i h1 h2
    have hi : i < w := by
      simp at h2
      omega
    have hai : a + i < row.length := by omega
    simp [List.getElem_take, List.getElem_drop, List.getD_eq_getElem?_getD,
      List.getElem?_eq_getElem hai]

/-- The spec's reading of the no-wall branch of `check_collision`: the
union of the grid markers at every cell of the tentative footprint's
rectangle. -/
def footprint_markers (cm : CollisionMap) (e : Collidable) : Finset MapEntity :=
  (Finset.range e.height).biUnion (fun i =>
    (Finset.range e.width).image (fun j => getCell cm (e.new_y.toNat + i) (e.new_x.toNat + j)))

/-- Writing one cell leaves every other cell unchanged. -/
lemma getCell_setCell_ne (cm : CollisionMap) (r c : Nat) (v : MapEntity) (r' c' : Nat)
    (h : ¬(r' = r ∧ c' = c)) : getCell (setCell cm r c v) r' c' = getCell cm r' c' := by
  unfold getCell setCell
  by_cases hr : r' = r
  · subst hr
    have hc : c' ≠ c := fun hc => h ⟨rfl, hc⟩
    by_cases hlen : r' < cm.map.length
    · simp [List.getD_eq_getElem?_getD, List.getElem?_set_self hlen,
        List.getElem?_set_ne (Ne.symm hc)]
    · rw [List.set_eq_of_length_le (by omega)]
  · simp [List.getD_eq_getElem?_getD, List.getElem?_set_ne (Ne.symm hr)]

/-- Writing an in-range cell makes that cell hold the written marker. -/
lemma getCell_setCell_self (cm : CollisionMap) (r c : Nat) (v : MapEntity)
    (hr : r < cm.map.length) (hc : c < (cm.map.getD r []).length) :
    getCell (setCell cm r c v) r c = v := by
  unfold getCell setCell
  simp only [List.getD_eq_getElem?_getD] at hc ⊢
  rw [List.getElem?_set_self hr]
  simp only [Option.getD_some]
  rw [List.getElem?_set_self hc]
  rfl

/-- `setCell` preserves the outer list's length. -/
lemma setCell_map_length (cm : CollisionMap) (r c : Nat) (v : MapEntity) :
    (setCell cm r c v).map.length = cm.map.length := by
  unfold setCell
  simp

/-- `setCell` preserves each row's length. -/
lemma setCell_row_length (cm : CollisionMap) (r c : Nat) (v : MapEntity) (r' : Nat) :
    ((setCell cm r c v).map.getD r' []).length = (cm.map.getD r' []).length := by
  unfold setCell
  by_cases hr : r' = r
  · subst hr
    by_cases hlen : r' < cm.map.length
    · simp [List.getD_eq_getElem?_getD, List.getElem?_set_self hlen]
    · rw [List.set_eq_of_length_le (by omega)]
  · simp [List.getD_eq_getElem?_getD, List.getElem?_set_ne (Ne.symm hr)]

/-- `setCell` preserves well-formedness. -/
lemma setCell_wellFormed (cm : CollisionMap) (r c : Nat) (v : MapEntity)
    (hwf : WellFormed cm) : WellFormed (setCell cm r c v) := by
  constructor
  · rw [setCell_map_length, hwf.1]
    rfl
  · intro row hrow
    unfold setCell at hrow
    simp only at hrow
    by_cases hlen : r < cm.map.length
    · rcases List.mem_or_eq_of_mem_set hrow with h | h
      · exact hwf.2 row h
      · subst h
        rw [List.length_set]
        have : cm.map.getD r [] = cm.map[r] := by
          simp [List.getD_eq_getElem?_getD, List.getElem?_eq_getElem hlen]
        rw [this]
        exact hwf.2 _ (cm.map.getElem_mem hlen)
    · rw [List.set_eq_of_length_le (by omega)] at hrow
      exact hwf.2 row hrow

/-- When no boundary guard fires, `check_collision` returns exactly the
union of the grid markers over the footprint rectangle. -/
lemma check_collision_no_wall (cm : CollisionMap) (e : Collidable) (hwf : WellFormed cm)
    (g1 : 1 ≤ e.new_x) (g2 : e.new_x < (cm.max_x : Int) + 1 - (e.width : Int))
    (g3 : 1 ≤ e.new_y) (g4 : e.new_y < (cm.max_y : Int) - (e.height : Int)) :
    check_collision cm e = footprint_markers cm e := by
  unfold check_collision
  rw [if_neg (by omega), if_neg (by omega), if_neg (by omega), if_neg (by omega),
    foldl_union_range, Finset.empty_union, footprint_markers]
  apply Finset.biUnion_congr rfl
  intro i hi
  rw [Finset.mem_range] at hi
  have hrow_idx : (e.new_y + (i : Int)).toNat = e.new_y.toNat + i := by omega
  have hlt : e.new_y.toNat + i < cm.map.length := by
    rw [hwf.1]
    omega
  have hlen : (getRow cm (e.new_y.toNat + i)).length = cm.max_x :=
    getRow_length cm hwf _ hlt
  rw [hrow_idx, drop_take_eq_map _ MapEntity.EMPTY _ _ (le_of_le_of_eq (by omega) hlen.symm)]
  ext v
  simp only [List.mem_toFinset, List.mem_map, List.mem_range, Finset.mem_image,
    Finset.mem_range]
  constructor
  · rintro ⟨j, hj, rfl⟩
    exact ⟨j, hj, rfl⟩
  · rintro ⟨j, hj, rfl⟩
    exact ⟨j, hj, rfl⟩

/-! ### Concrete data used by witnesses -/

/-- A small 6×8 well-formed board with one `PADDLE` marker at row 2,
column 2. -/
def cmW1 : CollisionMap := setCell (CollisionMap.mk' 6 8) 2 2 MapEntity.PADDLE

/-- A paddle-sized collidable whose tentative footprint (rows 1–4 of
column 2) is fully inside `cmW1`. -/
def eW1 : Collidable :=
  { x := 2, y := 1, width := 1, height := 4, new_x := 2, new_y := 1
    map_entity_type := MapEntity.PADDLE }

/-- Claim C1: `check_collision` tests the boundaries in the fixed order
left, right, top, bottom and short-circuits on the first match, each
out-of-range case yielding exactly the corresponding singleton wall set;
with every margin in range it returns exactly the union of the grid
markers over the footprint rectangle; consequently whenever any margin
is out of range — several at once included — the result is a single wall
singleton, so at most one wall kind is ever reported per query. -/
theorem C1_check_collision_boundary_order (cm : CollisionMap) (e : Collidable)
    (hwf : WellFormed cm) :
    (e.new_x < 1 → check_collision cm e = {MapEntity.LEFT_WALL}) ∧
    (1 ≤ e.new_x → (cm.max_x : Int) + 1 - (e.width : Int) ≤ e.new_x →
      check_collision cm e = {MapEntity.RIGHT_WALL}) ∧
    (1 ≤ e.new_x → e.new_x < (cm.max_x : Int) + 1 - (e.width : Int) → e.new_y < 1 →
      check_collision cm e = {MapEntity.TOP_WALL}) ∧
    (1 ≤ e.new_x → e.new_x < (cm.max_x : Int) + 1 - (e.width : Int) → 1 ≤ e.new_y →
      (cm.max_y : Int) - (e.height : Int) ≤ e.new_y →
      check_collision cm e = {MapEntity.BOTTOM_WALL}) ∧
    (1 ≤ e.new_x → e.new_x < (cm.max_x : Int) + 1 - (e.width : Int) → 1 ≤ e.new_y →
      e.new_y < (cm.max_y : Int) - (e.height : Int) →
      check_collision cm e = footprint_markers cm e) ∧
    ((e.new_x < 1 ∨ (cm.max_x : Int) + 1 - (e.width : Int) ≤ e.new_x ∨ e.new_y < 1 ∨
        (cm.max_y : Int) - (e.height : Int) ≤ e.new_y) →
      check_collision cm e = {MapEntity.LEFT_WALL} ∨
      check_collision cm e = {MapEntity.RIGHT_WALL} ∨
      check_collision cm e = {MapEntity.TOP_WALL} ∨
      check_collision cm e = {MapEntity.BOTTOM_WALL}) := by
  have h1 : e.new_x < 1 → check_collision cm e = {MapEntity.LEFT_WALL} := by
    intro h
    unfold check_collision
    rw [if_pos (by omega)]
  have h2 : 1 ≤ e.new_x → (cm.max_x : Int) + 1 - (e.width : Int) ≤ e.new_x →
      check_collision cm e = {MapEntity.RIGHT_WALL} := by
    intro ha hb
    unfold check_collision
    rw [if_neg (by omega), if_pos (by omega)]
  have h3 : 1 ≤ e.new_x → e.new_x < (cm.max_x : Int) + 1 - (e.width : Int) →
      e.new_y < 1 → check_collision cm e = {MapEntity.TOP_WALL} := by
    intro ha hb hc
    unfold check_collision
    rw [if_neg (by omega), if_neg (by omega), if_pos (by omega)]
  have h4 : 1 ≤ e.new_x → e.new_x < (cm.max_x : Int) + 1 - (e.width : Int) →
      1 ≤ e.new_y → (cm.max_y : Int) - (e.height : Int) ≤ e.new_y →
      check_collision cm e = {MapEntity.BOTTOM_WALL} := by
    intro ha hb hc hd
    unfold check_collision
    rw [if_neg (by omega), if_neg (by omega), if_neg (by omega), if_pos (by omega)]
  refine ⟨h1, h2, h3, h4, fun ha hb hc hd => check_collision_no_wall cm e hwf ha hb hc hd, ?_⟩
  intro hdisj
  by_cases c1 : e.new_x < 1
  · exact Or.inl (h1 c1)
  · by_cases c2 : (cm.max_x : Int) + 1 - (e.width : Int) ≤ e.new_x
    · exact Or.inr (Or.inl (h2 (by omega) c2))
    · by_cases c3 : e.new_y < 1
      · exact Or.inr (Or.inr (Or.inl (h3 (by omega) (by omega) c3)))
      · have c4 : (cm.max_y : Int) - (e.height : Int) ≤ e.new_y := by
          rcases hdisj with h | h | h | h <;> omega
        exact Or.inr (Or.inr (Or.inr (h4 (by omega) (by omega) (by omega) c4)))

/-- Witness for C1: on the concrete board `cmW1` the in-range collidable
`eW1` gets exactly the footprint-rectangle union. -/
theorem C1_witness : check_collision cmW1 eW1 = footprint_markers cmW1 eW1 :=
  (C1_check_collision_boundary_order cmW1 eW1 (by decide)).2.2.2.2.1
    (by decide) (by decide) (by decide) (by decide)

/-- Claim C10: when every boundary short-circuit fails for an entity of
positive width and height, all grid reads of the footprint loop are in
range — each row index lies in `[1, max_y − 2]` and is a valid index
into the grid, and the column slice `[new_x, new_x + width)` starts at
column ≥ 1 and stays within the row's length — so `check_collision`
never indexes out of range. -/
theorem C10_check_collision_in_bounds (cm : CollisionMap) (e : Collidable)
    (hwf : WellFormed cm) (hw : 1 ≤ e.width) (hh : 1 ≤ e.height)
    (g1 : ¬ e.new_x < 1)
    (g2 : ¬ ((cm.max_x : Int) + 1 - (e.width : Int) ≤ e.new_x))
    (g3 : ¬ e.new_y < 1)
    (g4 : ¬ ((cm.max_y : Int) - (e.height : Int) ≤ e.new_y)) :
    1 ≤ e.new_x ∧ e.new_x.toNat + e.width ≤ cm.max_x ∧
    ∀ i : Nat, i < e.height →
      1 ≤ e.new_y + (i : Int) ∧ e.new_y + (i : Int) ≤ (cm.max_y : Int) - 2 ∧
      (e.new_y + (i : Int)).toNat < cm.map.length ∧
      e.new_x.toNat + e.width ≤ (getRow cm (e.new_y + (i : Int)).toNat).length := by
  refine ⟨by omega, by omega, ?_⟩
  intro i hi
  have hlt : (e.new_y + (i : Int)).toNat < cm.map.length := by
    rw [hwf.1]
    omega
  refine ⟨by omega, by omega, hlt, ?_⟩
  rw [getRow_length cm hwf _ hlt]
  omega

/-- Witness for C10: the concrete in-range query on `cmW1` reads row 1
within bounds. -/
theorem C10_witness :
    eW1.new_x.toNat + eW1.width ≤ (getRow cmW1 (eW1.new_y + (0 : Int)).toNat).length :=
  ((C10_check_collision_in_bounds cmW1 eW1 (by decide) (by decide) (by decide)
      (by decide) (by decide) (by decide) (by decide)).2.2 0 (by decide)).2.2.2

instance {ε α : Type} [DecidableEq ε] [DecidableEq α] : DecidableEq (Except ε α) :=
  fun x y =>
  match x, y with
  | .ok a, .ok b =>
      if h : a = b then .isTrue (h ▸ rfl) else .isFalse (fun hh => h (Except.ok.inj hh))
  | .error a, .error b =>
      if h : a = b then .isTrue (h ▸ rfl) else .isFalse (fun hh => h (Except.error.inj hh))
  | .ok _, .error _ => .isFalse (fun h => Except.noConfusion h)
  | .error _, .ok _ => .isFalse (fun h => Except.noConfusion h)

/-- An 8×8 board with a paddle footprint in rows 2–5 of column 2 and a
ball marker at row 6, column 2 — one cell below the paddle. -/
def cmBallBelow : CollisionMap :=
  setCell (setCell (setCell (setCell (setCell (CollisionMap.mk' 8 8)
    2 2 MapEntity.PADDLE) 3 2 MapEntity.PADDLE) 4 2 MapEntity.PADDLE)
    5 2 MapEntity.PADDLE) 6 2 MapEntity.BALL

/-- An 8×8 board with only the paddle footprint in rows 2–5 of column 2. -/
def cmPaddleOnly : CollisionMap :=
  setCell (setCell (setCell (setCell (CollisionMap.mk' 8 8)
    2 2 MapEntity.PADDLE) 3 2 MapEntity.PADDLE) 4 2 MapEntity.PADDLE)
    5 2 MapEntity.PADDLE

/-- The paddle occupying rows 2–5 of column 2 on those boards. -/
def pRows2to5 : Paddle :=
  { x := 2, y := 2, new_x := 2, new_y := 2, width := 1, height := 4 }

/-- Counterexample to claim C2 as stated: on `cmBallBelow` the
down-move's collision query returns exactly `{BALL, PADDLE}`, and
`Paddle.move` raises the unexpected-collision error instead of accepting
and committing the move. -/
theorem C2_counterexample :
    check_collision cmBallBelow (paddle_tentative pRows2to5 Direction.DOWN).toCollidable =
      {MapEntity.BALL, MapEntity.PADDLE} ∧
    pRows2to5.move cmBallBelow Direction.DOWN = .error "Unexpected collision" := by
  constructor
  · decide
  · decide

/-- Claim C2 (amended): `Paddle.move` sets the tentative row to the
committed row plus the direction offset with the tentative column
unchanged, and dispatches on the exact collision-query result: `{Empty}`
and `{Empty, Paddle}` are accepted and committed via `update_map`;
`{TopWall}` and `{BottomWall}` are rejected silently with the position
and map unchanged; any other result — `{Ball, Paddle}` included — raises
the fatal unexpected-collision error. -/
theorem C2_paddle_move_dispatch (cm : CollisionMap) (p : Paddle) (d : Direction) :
    (paddle_tentative p d).new_y = p.y + d.value ∧
    (paddle_tentative p d).new_x = p.new_x ∧
    (paddle_tentative p d).y = p.y ∧
    (check_collision cm (paddle_tentative p d).toCollidable = {MapEntity.EMPTY} ∨
     check_collision cm (paddle_tentative p d).toCollidable =
       {MapEntity.EMPTY, MapEntity.PADDLE} →
      p.move cm d = .ok ((paddle_tentative p d).update_map cm) ∧
      ((paddle_tentative p d).update_map cm).1.y = p.y + d.value ∧
      ((paddle_tentative p d).update_map cm).1.x = p.x) ∧
    (check_collision cm (paddle_tentative p d).toCollidable = {MapEntity.TOP_WALL} ∨
     check_collision cm (paddle_tentative p d).toCollidable = {MapEntity.BOTTOM_WALL} →
      p.move cm d = .ok (paddle_tentative p d, cm)) ∧
    (¬(check_collision cm (paddle_tentative p d).toCollidable = {MapEntity.EMPTY} ∨
       check_collision cm (paddle_tentative p d).toCollidable =
         {MapEntity.EMPTY, MapEntity.PADDLE} ∨
       check_collision cm (paddle_tentative p d).toCollidable = {MapEntity.TOP_WALL} ∨
       check_collision cm (paddle_tentative p d).toCollidable = {MapEntity.BOTTOM_WALL}) →
      p.move cm d = .error "Unexpected collision") := by
  refine ⟨rfl, rfl, rfl, ?_, ?_, ?_⟩
  · intro h
    refine ⟨?_, rfl, rfl⟩
    unfold Paddle.move
    rw [if_pos h.symm]
  · intro h
    unfold Paddle.move
    rw [if_neg ?_, if_pos h.symm]
    rcases h with h | h <;> rw [h] <;> decide
  · intro h
    push_neg at h
    unfold Paddle.move
    rw [if_neg (by tauto), if_neg (by tauto)]

/-- Witness for C2: on `cmPaddleOnly` the down-move's query is exactly
`{Empty, Paddle}` (self-overlap) and the move is accepted and committed. -/
theorem C2_witness :
    pRows2to5.move cmPaddleOnly Direction.DOWN =
      .ok ((paddle_tentative pRows2to5 Direction.DOWN).update_map cmPaddleOnly) :=
  ((C2_paddle_move_dispatch cmPaddleOnly pRows2to5 Direction.DOWN).2.2.2.1
    (Or.inr (by decide))).1

/-! ### Ball claims -/

/-- An all-empty 9×9 board. -/
def cm9 : CollisionMap := CollisionMap.mk' 9 9

/-- A 9×9 board with a paddle marker at row 4, column 4. -/
def cm9Paddle44 : CollisionMap := setCell cm9 4 4 MapEntity.PADDLE

/-- A ball at (x = 3, y = 1) heading up-right: its tentative row is 0,
so the query is `{TOP_WALL}`. -/
def ballTopW : Ball :=
  { max_y := 9, max_x := 9, x := 3, y := 1, new_x := 0, new_y := 0
    width := 1, height := 1, dx := 1, dy := -1 }

/-- A ball at (x = 3, y = 3) heading down-right into the paddle marker
of `cm9Paddle44`. -/
def ballPaddleW : Ball :=
  { max_y := 9, max_x := 9, x := 3, y := 3, new_x := 0, new_y := 0
    width := 1, height := 1, dx := 1, dy := 1 }

/-- A ball at (x = 1, y = 3) heading left: its tentative column is 0, so
the query is `{LEFT_WALL}`. -/
def ballLeftW : Ball :=
  { max_y := 9, max_x := 9, x := 1, y := 3, new_x := 0, new_y := 0
    width := 1, height := 1, dx := -1, dy := 1 }

/-- A ball at (x = 8, y = 3) heading right: its tentative column is 9 ≥
`max_x + 1 − width`, so the query is `{RIGHT_WALL}`. -/
def ballRightW : Ball :=
  { max_y := 9, max_x := 9, x := 8, y := 3, new_x := 0, new_y := 0
    width := 1, height := 1, dx := 1, dy := 1 }

/-- Claim C8: when the collision query returns exactly `{TopWall}` or
exactly `{BottomWall}`, `Ball.move` inverts `dy` and commits nothing:
the returned map and score are the ones passed in, and the ball's
committed position is unchanged. -/
theorem C8_ball_wall_bounce (cm : CollisionMap) (b : Ball) (score : Score)
    (rdx rdy : Int)
    (h : check_collision cm (ball_tentative b).toCollidable = {MapEntity.TOP_WALL} ∨
         check_collision cm (ball_tentative b).toCollidable = {MapEntity.BOTTOM_WALL}) :
    b.move cm score rdx rdy = .ok ({ ball_tentative b with dy := -b.dy }, cm, score) ∧
    ({ ball_tentative b with dy := -b.dy } : Ball).x = b.x ∧
    ({ ball_tentative b with dy := -b.dy } : Ball).y = b.y := by
  refine ⟨?_, rfl, rfl⟩
  unfold Ball.move ball_handle_collision
  have hne : check_collision cm (ball_tentative b).toCollidable ≠ {MapEntity.EMPTY} := by
    rcases h with h | h <;> rw [h] <;> decide
  rw [if_neg hne, if_pos h.symm]
  rfl

/-- Witness for C8: `ballTopW` on the empty board hits `{TOP_WALL}` and
bounces with `dy` inverted, everything else unchanged. -/
theorem C8_witness :
    ballTopW.move cm9 ⟨0, 0⟩ 1 1 =
      .ok ({ ball_tentative ballTopW with dy := -ballTopW.dy }, cm9, (⟨0, 0⟩ : Score)) :=
  (C8_ball_wall_bounce cm9 ballTopW ⟨0, 0⟩ 1 1 (Or.inl (by decide))).1

/-- Counterexample to claim C4 as stated: handing the `{Ball, Paddle}`
set to `Ball.move`'s dispatch raises the unexpected-collision error —
it does not invert `dx`. -/
theorem C4_counterexample :
    ball_handle_collision {MapEntity.BALL, MapEntity.PADDLE} ballPaddleW cm9 ⟨0, 0⟩ 1 1 =
      .error "Unexpected collision" := by
  decide

/-- Claim C4 (amended): the paddle-catch set `Ball.move` accepts is
exactly `{Paddle}` (a 1×1 ball footprint yields singleton queries): on
`{Paddle}` the horizontal component `dx` is inverted and neither the
ball's committed position nor the map nor the score is committed that
tick; `{Ball, Paddle}` instead raises the fatal error. -/
theorem C4_ball_paddle_catch (cm : CollisionMap) (b : Ball) (score : Score)
    (rdx rdy : Int)
    (h : check_collision cm (ball_tentative b).toCollidable = {MapEntity.PADDLE}) :
    b.move cm score rdx rdy = .ok ({ ball_tentative b with dx := -b.dx }, cm, score) ∧
    ({ ball_tentative b with dx := -b.dx } : Ball).x = b.x ∧
    ({ ball_tentative b with dx := -b.dx } : Ball).y = b.y := by
  refine ⟨?_, rfl, rfl⟩
  unfold Ball.move ball_handle_collision
  rw [if_neg (by rw [h]; decide), if_neg (by rw [h]; decide), if_pos h]
  rfl

/-- Witness for C4: `ballPaddleW` moving into the paddle marker of
`cm9Paddle44` queries exactly `{Paddle}` and bounces horizontally. -/
theorem C4_witness :
    ballPaddleW.move cm9Paddle44 ⟨0, 0⟩ 1 1 =
      .ok ({ ball_tentative ballPaddleW with dx := -ballPaddleW.dx }, cm9Paddle44,
        (⟨0, 0⟩ : Score)) :=
  (C4_ball_paddle_catch cm9Paddle44 ballPaddleW ⟨0, 0⟩ 1 1 (by decide)).1

/-- Claim C3 evaluated at its failing inputs: a `{LeftWall}` query makes
`Ball.move` increment `player_1_score` — the counter drawn at the left
offset and owned by the left ('w'/'s') player — not the right-side
counter the claim names, and symmetrically `{RightWall}` increments
`player_2_score`. -/
theorem C3_code_divergence :
    check_collision cm9 (ball_tentative ballLeftW).toCollidable = {MapEntity.LEFT_WALL} ∧
    (ballLeftW.move cm9 ⟨0, 0⟩ 1 1).map
      (fun r => (r.2.2.player_1_score, r.2.2.player_2_score)) = .ok (1, 0) ∧
    check_collision cm9 (ball_tentative ballRightW).toCollidable = {MapEntity.RIGHT_WALL} ∧
    (ballRightW.move cm9 ⟨0, 0⟩ 1 1).map
      (fun r => (r.2.2.player_1_score, r.2.2.player_2_score)) = .ok (0, 1) := by
  refine ⟨by decide, by decide, by decide, by decide⟩

/-- Counterexample to claim C5 as stated: after the `{LeftWall}` branch
of `Ball.move` runs `reset`, the ball's committed position is the
midpoint (4, 4) of the 9×9 board but the map cell there holds `EMPTY`,
not a committed `Ball` marker — `reset` never writes into the map. -/
theorem C5_counterexample :
    (ballLeftW.move cm9 ⟨0, 0⟩ 1 1).map
      (fun r => (r.1.x, r.1.y, getCell r.2.1 4 4)) =
      .ok (4, 4, MapEntity.EMPTY) := by
  decide

/-- Claim C5 (amended): after a reset triggered by a `{LeftWall}` or
`{RightWall}` query, the ball's committed position is the exact board
midpoint `(max_x / 2, max_y / 2)`, its direction components are the two
`choice([-1, 1])` draws (so all four diagonals are possible), and the
only map change is that the caller cleared the pre-reset cell — no stale
`Ball` marker remains there, but no `Ball` marker is written at the
midpoint either; every other cell is untouched. -/
theorem C5_ball_reset_behaviour (cm : CollisionMap) (b : Ball) (score : Score)
    (rdx rdy : Int)
    (h : check_collision cm (ball_tentative b).toCollidable = {MapEntity.LEFT_WALL} ∨
         check_collision cm (ball_tentative b).toCollidable = {MapEntity.RIGHT_WALL}) :
    (∃ score' : Score,
      b.move cm score rdx rdy =
        .ok ((ball_tentative b).reset rdx rdy,
          setCell cm b.y.toNat b.x.toNat MapEntity.EMPTY, score')) ∧
    ((ball_tentative b).reset rdx rdy).x = ((b.max_x / 2 : Nat) : Int) ∧
    ((ball_tentative b).reset rdx rdy).y = ((b.max_y / 2 : Nat) : Int) ∧
    ((ball_tentative b).reset rdx rdy).dx = rdx ∧
    ((ball_tentative b).reset rdx rdy).dy = rdy ∧
    (∀ r c : Nat, ¬(r = b.y.toNat ∧ c = b.x.toNat) →
      getCell (setCell cm b.y.toNat b.x.toNat MapEntity.EMPTY) r c = getCell cm r c) := by
  refine ⟨?_, rfl, rfl, rfl, rfl, fun r c hrc => getCell_setCell_ne cm _ _ _ r c hrc⟩
  rcases h with h | h
  · refine ⟨{ score with player_1_score := score.player_1_score + 1 }, ?_⟩
    unfold Ball.move ball_handle_collision
    rw [if_neg (by rw [h]; decide), if_neg (by rw [h]; decide),
      if_neg (by rw [h]; decide), if_pos h]
    rfl
  · refine ⟨{ score with player_2_score := score.player_2_score + 1 }, ?_⟩
    unfold Ball.move ball_handle_collision
    rw [if_neg (by rw [h]; decide), if_neg (by rw [h]; decide),
      if_neg (by rw [h]; decide), if_neg (by rw [h]; decide), if_pos h]
    rfl

/-- Witness for C5: the reset run by `ballLeftW`'s left-wall move
re-centres the ball at column 4 = 9/2. -/
theorem C5_witness :
    ((ball_tentative ballLeftW).reset 1 (-1)).x = ((ballLeftW.max_x / 2 : Nat) : Int) :=
  (C5_ball_reset_behaviour cm9 ballLeftW ⟨0, 0⟩ 1 (-1) (Or.inl (by decide))).2.1

/-! ### Commit (`update_map`) characterization -/

/-- A fold of grid writes that each preserve the outer length preserves
the outer length. -/
lemma foldl_map_length_of (F : CollisionMap → Nat → CollisionMap)
    (hF : ∀ acc i, (F acc i).map.length = acc.map.length) (l : List Nat) :
    ∀ cm : CollisionMap, (l.foldl F cm).map.length = cm.map.length := by
  induction l with
  | nil => intro cm; rfl
  | cons a l ih => intro cm; rw [List.foldl_cons, ih, hF]

/-- A fold of grid writes that each preserve every row's length
preserves every row's length. -/
lemma foldl_row_length_of (F : CollisionMap → Nat → CollisionMap)
    (hF : ∀ acc i r', ((F acc i).map.getD r' []).length = (acc.map.getD r' []).length)
    (l : List Nat) :
    ∀ (cm : CollisionMap) (r' : Nat),
      ((l.foldl F cm).map.getD r' []).length = (cm.map.getD r' []).length := by
  induction l with
  | nil => intro cm r'; rfl
  | cons a l ih => intro cm r'; rw [List.foldl_cons, ih, hF]

/-- Cell-wise description of writing marker `v` down a column: rows
`[y, y + n)` of column `x` hold `v`, everything else is untouched. -/
lemma getCell_setColumn (y x n : Nat) (v : MapEntity) :
    ∀ (cm : CollisionMap) (r c : Nat),
      y + n ≤ cm.map.length →
      (∀ r' : Nat, r' < cm.map.length → x < (cm.map.getD r' []).length) →
      getCell ((List.range n).foldl (fun acc i => setCell acc (y + i) x v) cm) r c =
        if c = x ∧ y ≤ r ∧ r < y + n then v else getCell cm r c := by
  induction n with
  | zero =>
      intro cm r c hb hx
      rw [List.range_zero, List.foldl_nil, if_neg (by omega)]
  | succ n ih =>
      intro cm r c hb hx
      rw [List.range_succ, List.foldl_append, List.foldl_cons, List.foldl_nil]
      have hlenF : ((List.range n).foldl
          (fun acc i => setCell acc (y + i) x v) cm).map.length = cm.map.length :=
        foldl_map_length_of _ (fun acc i => setCell_map_length acc (y + i) x v) _ cm
      by_cases hrc : r = y + n ∧ c = x
      · obtain ⟨hr, hc⟩ := hrc
        subst hr
        rw [hc, getCell_setCell_self _ _ _ _ ?_ ?_, if_pos ⟨rfl, by omega, by omega⟩]
        · rw [hlenF]
          omega
        · rw [foldl_row_length_of _
            (fun acc i r' => setCell_row_length acc (y + i) x v r') _ cm _]
          exact hx _ (by omega)
      · rw [getCell_setCell_ne _ _ _ _ _ _ hrc, ih cm r c (by omega) hx]
        by_cases hin : c = x ∧ y ≤ r ∧ r < y + n
        · rw [if_pos hin, if_pos ⟨hin.1, hin.2.1, by omega⟩]
        · rw [if_neg hin, if_neg ?_]
          rintro ⟨hc, hy', hr'⟩
          have hnr : ¬(y ≤ r ∧ r < y + n) := fun hh => hin ⟨hc, hh.1, hh.2⟩
          exact hrc ⟨by omega, hc⟩

/-- Cell-wise description of `Paddle.update_map`: the new footprint
column holds `PADDLE`, the vacated cells of the old footprint hold
`EMPTY`, and every other cell is untouched. -/
lemma getCell_paddle_update_map (cm : CollisionMap) (p : Paddle)
    (hwf : WellFormed cm)
    (hpy0 : 0 ≤ p.y) (hpy1 : 0 ≤ p.new_y) (hpx0 : 0 ≤ p.x) (hpx : p.new_x = p.x)
    (hb0 : p.y.toNat + p.height ≤ cm.max_y)
    (hb1 : p.new_y.toNat + p.height ≤ cm.max_y)
    (hxb : p.x.toNat < cm.max_x) (r c : Nat) :
    getCell (p.update_map cm).2 r c =
      if c = p.x.toNat ∧ p.new_y.toNat ≤ r ∧ r < p.new_y.toNat + p.height then
        MapEntity.PADDLE
      else if c = p.x.toNat ∧ p.y.toNat ≤ r ∧ r < p.y.toNat + p.height then
        MapEntity.EMPTY
      else getCell cm r c := by
  have e1 : (List.range p.height).foldl
      (fun (acc : CollisionMap) (i : Nat) =>
        setCell acc (p.y + (i : Int)).toNat p.x.toNat MapEntity.EMPTY) cm =
      (List.range p.height).foldl
      (fun acc i => setCell acc (p.y.toNat + i) p.x.toNat MapEntity.EMPTY) cm := by
    apply List.foldl_ext
    intro acc i hi
    congr 1
    omega
  have hcols : ∀ r' : Nat, r' < cm.map.length → p.x.toNat < (cm.map.getD r' []).length := by
    intro r' hr'
    rw [show (cm.map.getD r' [] : List MapEntity) = getRow cm r' from rfl,
      getRow_length cm hwf r' hr']
    exact hxb
  have hlen1 : ((List.range p.height).foldl
      (fun acc i => setCell acc (p.y.toNat + i) p.x.toNat MapEntity.EMPTY) cm).map.length =
      cm.map.length :=
    foldl_map_length_of _ (fun acc i => setCell_map_length acc (p.y.toNat + i) _ _) _ cm
  have hrow1 : ∀ r' : Nat, (((List.range p.height).foldl
      (fun acc i => setCell acc (p.y.toNat + i) p.x.toNat MapEntity.EMPTY) cm).map.getD
        r' []).length = (cm.map.getD r' []).length :=
    foldl_row_length_of _ (fun acc i r' => setCell_row_length acc (p.y.toNat + i) _ _ r') _ cm
  have e2 : (List.range p.height).foldl
      (fun (acc : CollisionMap) (i : Nat) =>
        setCell acc (p.new_y + (i : Int)).toNat p.new_x.toNat MapEntity.PADDLE)
      ((List.range p.height).foldl
        (fun acc i => setCell acc (p.y.toNat + i) p.x.toNat MapEntity.EMPTY) cm) =
      (List.range p.height).foldl
      (fun acc i => setCell acc (p.new_y.toNat + i) p.x.toNat MapEntity.PADDLE)
      ((List.range p.height).foldl
        (fun acc i => setCell acc (p.y.toNat + i) p.x.toNat MapEntity.EMPTY) cm) := by
    apply List.foldl_ext
    intro acc i hi
    congr 1
    · omega
    · omega
  have hmain : getCell (p.update_map cm).2 r c =
      getCell ((List.range p.height).foldl
        (fun acc i => setCell acc (p.new_y.toNat + i) p.x.toNat MapEntity.PADDLE)
        ((List.range p.height).foldl
          (fun acc i => setCell acc (p.y.toNat + i) p.x.toNat MapEntity.EMPTY) cm)) r c := by
    simp only [Paddle.update_map]
    rw [e1, e2]
  rw [hmain, getCell_setColumn _ _ _ _ _ r c (by rw [hlen1, hwf.1]; exact hb1)
    (by intro r' hr'; rw [hrow1 r']; exact hcols r' (by rw [hlen1] at hr'; exact hr'))]
  by_cases h2 : c = p.x.toNat ∧ p.new_y.toNat ≤ r ∧ r < p.new_y.toNat + p.height
  · rw [if_pos h2, if_pos h2]
  · rw [if_neg h2, if_neg h2,
      getCell_setColumn _ _ _ _ _ r c (by rw [hwf.1]; exact hb0) hcols]

/-- Cell-wise description of `Ball.update_map`: the new cell holds
`BALL`, the old cell (when different) holds `EMPTY`, and every other
cell is untouched. -/
lemma getCell_ball_update_map (cm : CollisionMap) (b : Ball) (hwf : WellFormed cm)
    (hx0 : 0 ≤ b.x) (hy0 : 0 ≤ b.y) (hx1 : 0 ≤ b.new_x) (hy1 : 0 ≤ b.new_y)
    (hyb : b.y.toNat < cm.max_y) (hxb : b.x.toNat < cm.max_x)
    (hyb1 : b.new_y.toNat < cm.max_y) (hxb1 : b.new_x.toNat < cm.max_x) (r c : Nat) :
    getCell (b.update_map cm).2 r c =
      if r = b.new_y.toNat ∧ c = b.new_x.toNat then MapEntity.BALL
      else if r = b.y.toNat ∧ c = b.x.toNat then MapEntity.EMPTY
      else getCell cm r c := by
  have hcols : ∀ x' r' : Nat, x' < cm.max_x → r' < cm.map.length →
      x' < (cm.map.getD r' []).length := by
    intro x' r' hx' hr'
    rw [show (cm.map.getD r' [] : List MapEntity) = getRow cm r' from rfl,
      getRow_length cm hwf r' hr']
    exact hx'
  have hupd : (b.update_map cm).2 =
      setCell (setCell cm b.y.toNat b.x.toNat MapEntity.EMPTY)
        b.new_y.toNat b.new_x.toNat MapEntity.BALL := rfl
  rw [hupd]
  by_cases h1 : r = b.new_y.toNat ∧ c = b.new_x.toNat
  · obtain ⟨hr, hc⟩ := h1
    rw [hr, hc, getCell_setCell_self _ _ _ _
      (by rw [setCell_map_length, hwf.1]; exact hyb1)
      (by rw [setCell_row_length]; exact hcols _ _ hxb1 (by rw [hwf.1]; exact hyb1)),
      if_pos ⟨rfl, rfl⟩]
  · rw [getCell_setCell_ne _ _ _ _ _ _ h1, if_neg h1]
    by_cases h2 : r = b.y.toNat ∧ c = b.x.toNat
    · obtain ⟨hr, hc⟩ := h2
      rw [hr, hc, getCell_setCell_self _ _ _ _ (by rw [hwf.1]; exact hyb)
        (hcols _ _ hxb (by rw [hwf.1]; exact hyb)), if_pos ⟨rfl, rfl⟩]
    · rw [getCell_setCell_ne _ _ _ _ _ _ h2, if_neg h2]

/-- Well-formedness follows from the outer length and the `getD` row
lengths. -/
lemma wellFormed_of_getD (cm : CollisionMap) (h1 : cm.map.length = cm.max_y)
    (h2 : ∀ r' : Nat, r' < cm.map.length → (cm.map.getD r' []).length = cm.max_x) :
    WellFormed cm := by
  refine ⟨h1, ?_⟩
  intro row hrow
  obtain ⟨i, hi, rfl⟩ := List.mem_iff_getElem.mp hrow
  have h := h2 i hi
  rwa [List.getD_eq_getElem?_getD, List.getElem?_eq_getElem hi] at h

/-- A fold of writes that keep the dimension fields keeps them. -/
lemma foldl_maxes_of (F : CollisionMap → Nat → CollisionMap)
    (hF : ∀ acc i, (F acc i).max_y = acc.max_y ∧ (F acc i).max_x = acc.max_x)
    (l : List Nat) :
    ∀ cm : CollisionMap,
      (l.foldl F cm).max_y = cm.max_y ∧ (l.foldl F cm).max_x = cm.max_x := by
  induction l with
  | nil => intro cm; exact ⟨rfl, rfl⟩
  | cons a l ih =>
      intro cm
      rw [List.foldl_cons]
      exact ⟨(ih (F cm a)).1.trans (hF cm a).1, (ih (F cm a)).2.trans (hF cm a).2⟩

/-- `Paddle.update_map` preserves the grid's dimensions and
well-formedness. -/
lemma paddle_update_map_wellFormed (cm : CollisionMap) (p : Paddle)
    (hwf : WellFormed cm) :
    WellFormed (p.update_map cm).2 ∧
    (p.update_map cm).2.max_y = cm.max_y ∧ (p.update_map cm).2.max_x = cm.max_x := by
  have hsetF : ∀ (y0 x0 : Int) (v : MapEntity),
      ∀ cm0 : CollisionMap,
        (((List.range p.height).foldl
          (fun (acc : CollisionMap) (i : Nat) =>
            setCell acc (y0 + (i : Int)).toNat x0.toNat v) cm0)).map.length =
          cm0.map.length ∧
        (∀ r' : Nat, ((((List.range p.height).foldl
          (fun (acc : CollisionMap) (i : Nat) =>
            setCell acc (y0 + (i : Int)).toNat x0.toNat v) cm0)).map.getD r' []).length =
          (cm0.map.getD r' []).length) ∧
        ((List.range p.height).foldl
          (fun (acc : CollisionMap) (i : Nat) =>
            setCell acc (y0 + (i : Int)).toNat x0.toNat v) cm0).max_y = cm0.max_y ∧
        ((List.range p.height).foldl
          (fun (acc : CollisionMap) (i : Nat) =>
            setCell acc (y0 + (i : Int)).toNat x0.toNat v) cm0).max_x = cm0.max_x := by
    intro y0 x0 v cm0
    refine ⟨foldl_map_length_of _ (fun acc i => setCell_map_length acc _ _ _) _ cm0,
      fun r' => foldl_row_length_of _ (fun acc i r'' => setCell_row_length acc _ _ _ r'') _ cm0 r',
      (foldl_maxes_of (fun (acc : CollisionMap) (i : Nat) =>
        setCell acc (y0 + (i : Int)).toNat x0.toNat v) (fun acc i => ⟨rfl, rfl⟩) _ cm0).1,
      (foldl_maxes_of (fun (acc : CollisionMap) (i : Nat) =>
        setCell acc (y0 + (i : Int)).toNat x0.toNat v) (fun acc i => ⟨rfl, rfl⟩) _ cm0).2⟩
  have h1 := hsetF p.y p.x MapEntity.EMPTY cm
  have h2 := hsetF p.new_y p.new_x MapEntity.PADDLE
    ((List.range p.height).foldl
      (fun (acc : CollisionMap) (i : Nat) =>
        setCell acc (p.y + (i : Int)).toNat p.x.toNat MapEntity.EMPTY) cm)
  have hupd : (p.update_map cm).2 = (List.range p.height).foldl
      (fun (acc : CollisionMap) (i : Nat) =>
        setCell acc (p.new_y + (i : Int)).toNat p.new_x.toNat MapEntity.PADDLE)
      ((List.range p.height).foldl
        (fun (acc : CollisionMap) (i : Nat) =>
          setCell acc (p.y + (i : Int)).toNat p.x.toNat MapEntity.EMPTY) cm) := rfl
  rw [hupd]
  refine ⟨wellFormed_of_getD _ ?_ ?_, h2.2.2.1.trans h1.2.2.1, h2.2.2.2.trans h1.2.2.2⟩
  · rw [h2.1, h1.1, hwf.1, h2.2.2.1.trans h1.2.2.1]
  · intro r' hr'
    rw [h2.2.1 r', h1.2.1 r', h2.2.2.2.trans h1.2.2.2]
    have hr'' : r' < cm.map.length := by rw [h2.1, h1.1] at hr'; exact hr'
    rw [show (cm.map.getD r' [] : List MapEntity) = getRow cm r' from rfl]
    exact getRow_length cm hwf r' hr''

/-- `Ball.update_map` preserves the grid's dimensions and
well-formedness. -/
lemma ball_update_map_wellFormed (cm : CollisionMap) (b : Ball)
    (hwf : WellFormed cm) :
    WellFormed (b.update_map cm).2 ∧
    (b.update_map cm).2.max_y = cm.max_y ∧ (b.update_map cm).2.max_x = cm.max_x := by
  have hupd : (b.update_map cm).2 =
      setCell (setCell cm b.y.toNat b.x.toNat MapEntity.EMPTY)
        b.new_y.toNat b.new_x.toNat MapEntity.BALL := rfl
  rw [hupd]
  exact ⟨setCell_wellFormed _ _ _ _ (setCell_wellFormed _ _ _ _ hwf), rfl, rfl⟩

/-- Claim C7: after an accepted commit (`Paddle.update_map` or
`Ball.update_map`), every cell of the previous footprint outside the new
footprint holds `Empty`, every cell of the new footprint holds the
entity's kind, every cell outside both footprints is untouched (so no
orphaned markers appear anywhere else), the committed position equals
the previously tentative one, and moving the entity away and back
restores the original occupancy cell for cell. -/
theorem C7_commit_consistency (cm : CollisionMap) (p : Paddle) (b : Ball)
    (hwf : WellFormed cm)
    (hpy0 : 0 ≤ p.y) (hpy1 : 0 ≤ p.new_y) (hpx0 : 0 ≤ p.x) (hpx : p.new_x = p.x)
    (hb0 : p.y.toNat + p.height ≤ cm.max_y) (hb1 : p.new_y.toNat + p.height ≤ cm.max_y)
    (hxb : p.x.toNat < cm.max_x)
    (hbx0 : 0 ≤ b.x) (hby0 : 0 ≤ b.y) (hbx1 : 0 ≤ b.new_x) (hby1 : 0 ≤ b.new_y)
    (hyb : b.y.toNat < cm.max_y) (hxbb : b.x.toNat < cm.max_x)
    (hyb1 : b.new_y.toNat < cm.max_y) (hxb1 : b.new_x.toNat < cm.max_x) :
    ((p.update_map cm).1.y = p.new_y ∧ (p.update_map cm).1.x = p.new_x) ∧
    ((b.update_map cm).1.y = b.new_y ∧ (b.update_map cm).1.x = b.new_x) ∧
    (∀ r c : Nat,
      getCell (p.update_map cm).2 r c =
        if c = p.x.toNat ∧ p.new_y.toNat ≤ r ∧ r < p.new_y.toNat + p.height then
          MapEntity.PADDLE
        else if c = p.x.toNat ∧ p.y.toNat ≤ r ∧ r < p.y.toNat + p.height then
          MapEntity.EMPTY
        else getCell cm r c) ∧
    (∀ r c : Nat,
      getCell (b.update_map cm).2 r c =
        if r = b.new_y.toNat ∧ c = b.new_x.toNat then MapEntity.BALL
        else if r = b.y.toNat ∧ c = b.x.toNat then MapEntity.EMPTY
        else getCell cm r c) ∧
    ((∀ r0 : Nat, p.y.toNat ≤ r0 → r0 < p.y.toNat + p.height →
        getCell cm r0 p.x.toNat = MapEntity.PADDLE) →
     (∀ r0 : Nat, p.new_y.toNat ≤ r0 → r0 < p.new_y.toNat + p.height →
        ¬(p.y.toNat ≤ r0 ∧ r0 < p.y.toNat + p.height) →
        getCell cm r0 p.x.toNat = MapEntity.EMPTY) →
     ∀ r c : Nat,
       getCell (Paddle.update_map
         { x := p.x, y := p.new_y, new_x := p.new_x, new_y := p.y
           width := p.width, height := p.height } (p.update_map cm).2).2 r c =
         getCell cm r c) ∧
    (getCell cm b.y.toNat b.x.toNat = MapEntity.BALL →
     (¬(b.new_y.toNat = b.y.toNat ∧ b.new_x.toNat = b.x.toNat) →
        getCell cm b.new_y.toNat b.new_x.toNat = MapEntity.EMPTY) →
     ∀ r c : Nat,
       getCell (Ball.update_map
         { b with x := b.new_x, y := b.new_y, new_x := b.x, new_y := b.y }
         (b.update_map cm).2).2 r c = getCell cm r c) := by
  have hpaddle := getCell_paddle_update_map cm p hwf hpy0 hpy1 hpx0 hpx hb0 hb1 hxb
  have hball := getCell_ball_update_map cm b hwf hbx0 hby0 hbx1 hby1 hyb hxbb hyb1 hxb1
  have hwfp := paddle_update_map_wellFormed cm p hwf
  have hwfb := ball_update_map_wellFormed cm b hwf
  refine ⟨⟨rfl, hpx.symm⟩, ⟨rfl, rfl⟩, hpaddle, hball, ?_, ?_⟩
  · intro hprev hnew r c
    have hchar2 : getCell (Paddle.update_map
        { x := p.x, y := p.new_y, new_x := p.new_x, new_y := p.y
          width := p.width, height := p.height } (p.update_map cm).2).2 r c =
        if c = p.x.toNat ∧ p.y.toNat ≤ r ∧ r < p.y.toNat + p.height then
          MapEntity.PADDLE
        else if c = p.x.toNat ∧ p.new_y.toNat ≤ r ∧ r < p.new_y.toNat + p.height then
          MapEntity.EMPTY
        else getCell (p.update_map cm).2 r c :=
      getCell_paddle_update_map (p.update_map cm).2
        { x := p.x, y := p.new_y, new_x := p.new_x, new_y := p.y
          width := p.width, height := p.height }
        hwfp.1 hpy1 hpy0 hpx0 hpx
        (by rw [hwfp.2.1]; exact hb1) (by rw [hwfp.2.1]; exact hb0)
        (by rw [hwfp.2.2]; exact hxb) r c
    rw [hchar2]
    by_cases hA : c = p.x.toNat ∧ p.y.toNat ≤ r ∧ r < p.y.toNat + p.height
    · rw [if_pos hA, hA.1]
      exact (hprev r hA.2.1 hA.2.2).symm
    · rw [if_neg hA]
      by_cases hB : c = p.x.toNat ∧ p.new_y.toNat ≤ r ∧ r < p.new_y.toNat + p.height
      · rw [if_pos hB, hB.1]
        exact (hnew r hB.2.1 hB.2.2 (fun hh => hA ⟨hB.1, hh.1, hh.2⟩)).symm
      · rw [if_neg hB, hpaddle r c, if_neg hB, if_neg hA]
  · intro hOld hNew r c
    have hchar2 : getCell (Ball.update_map
        { b with x := b.new_x, y := b.new_y, new_x := b.x, new_y := b.y }
        (b.update_map cm).2).2 r c =
        if r = b.y.toNat ∧ c = b.x.toNat then MapEntity.BALL
        else if r = b.new_y.toNat ∧ c = b.new_x.toNat then MapEntity.EMPTY
        else getCell (b.update_map cm).2 r c :=
      getCell_ball_update_map (b.update_map cm).2
        { b with x := b.new_x, y := b.new_y, new_x := b.x, new_y := b.y }
        hwfb.1 hbx1 hby1 hbx0 hby0
        (by rw [hwfb.2.1]; exact hyb1) (by rw [hwfb.2.2]; exact hxb1)
        (by rw [hwfb.2.1]; exact hyb) (by rw [hwfb.2.2]; exact hxbb) r c
    rw [hchar2]
    by_cases hA : r = b.y.toNat ∧ c = b.x.toNat
    · rw [if_pos hA, hA.1, hA.2]
      exact hOld.symm
    · rw [if_neg hA]
      by_cases hB : r = b.new_y.toNat ∧ c = b.new_x.toNat
      · rw [if_pos hB, hB.1, hB.2]
        exact (hNew (fun hh => hA ⟨hB.1.trans hh.1, hB.2.trans hh.2⟩)).symm
      · rw [if_neg hB, hball r c, if_neg hB, if_neg hA]

/-- A paddle on `cmBallBelow` about to move from rows 2–5 to rows 3–6. -/
def pC7 : Paddle := { x := 2, y := 2, new_x := 2, new_y := 3, width := 1, height := 4 }

/-- The ball of `cmBallBelow` at (x = 2, y = 6), tentatively moving to
(3, 5). -/
def bC7 : Ball :=
  { max_y := 8, max_x := 8, x := 2, y := 6, new_x := 3, new_y := 5
    width := 1, height := 1, dx := 1, dy := -1 }

/-- Witness for C7: committing `bC7`'s move writes the ball marker at
its new cell (5, 3). -/
theorem C7_witness : getCell (Ball.update_map bC7 cmBallBelow).2 5 3 = MapEntity.BALL := by
  rw [(C7_commit_consistency cmBallBelow pC7 bC7 (by decide) (by decide) (by decide)
    (by decide) (by decide) (by decide) (by decide) (by decide) (by decide) (by decide)
    (by decide) (by decide) (by decide) (by decide) (by decide) (by decide)).2.2.2.1 5 3]
  decide

/-! ### Score monotonicity -/

/-- Whenever `Ball.move`'s dispatch succeeds, neither score counter
decreases, and the score only changes in the two wall branches. -/
lemma ball_handle_collision_score (collision : Finset MapEntity) (b : Ball)
    (cm : CollisionMap) (sc : Score) (rdx rdy : Int) (r : Ball × CollisionMap × Score)
    (h : ball_handle_collision collision b cm sc rdx rdy = .ok r) :
    (sc.player_1_score ≤ r.2.2.player_1_score ∧
     sc.player_2_score ≤ r.2.2.player_2_score) ∧
    (r.2.2 ≠ sc →
      collision = {MapEntity.LEFT_WALL} ∨ collision = {MapEntity.RIGHT_WALL}) := by
  unfold ball_handle_collision at h
  split_ifs at h with h1 h2 h3 h4 h5
  · have hr := Except.ok.inj h
    subst hr
    exact ⟨⟨le_refl _, le_refl _⟩, fun hne => absurd rfl hne⟩
  · have hr := Except.ok.inj h
    subst hr
    exact ⟨⟨le_refl _, le_refl _⟩, fun hne => absurd rfl hne⟩
  · have hr := Except.ok.inj h
    subst hr
    exact ⟨⟨le_refl _, le_refl _⟩, fun hne => absurd rfl hne⟩
  · have hr := Except.ok.inj h
    subst hr
    exact ⟨⟨Nat.le_succ _, le_refl _⟩, fun _ => Or.inl h4⟩
  · have hr := Except.ok.inj h
    subst hr
    exact ⟨⟨le_refl _, Nat.le_succ _⟩, fun _ => Or.inr h5⟩

/-- No single orchestrator step decreases either score counter. -/
lemma gameStep_score_mono (s : GState) (op : GameOp) :
    s.score.player_1_score ≤ (gameStep s op).score.player_1_score ∧
    s.score.player_2_score ≤ (gameStep s op).score.player_2_score := by
  cases op with
  | moveLeftPaddle d =>
      simp only [gameStep]
      cases s.left_paddle.move s.cm d <;> exact ⟨le_refl _, le_refl _⟩
  | moveRightPaddle d =>
      simp only [gameStep]
      cases s.right_paddle.move s.cm d <;> exact ⟨le_refl _, le_refl _⟩
  | moveBall rdx rdy =>
      simp only [gameStep]
      cases hmv : s.ball.move s.cm s.score rdx rdy with
      | error e => exact ⟨le_refl _, le_refl _⟩
      | ok r =>
          exact (ball_handle_collision_score
            (check_collision s.cm (ball_tentative s.ball).toCollidable)
            (ball_tentative s.ball) s.cm s.score rdx rdy r hmv).1
  | resetBall rdx rdy => exact ⟨le_refl _, le_refl _⟩
  | render => exact ⟨le_refl _, le_refl _⟩

/-- Claim C9: across any interleaving of paddle moves, ball moves,
resets and renders, each (non-negative `Nat`) score counter never
decreases — so their sum is monotonically non-decreasing over an
arbitrarily long run — a ball step that changes the score can only be a
`{LeftWall}`/`{RightWall}` reset-triggering branch, and no other
operation changes the score at all. -/
theorem C9_score_monotone :
    (∀ (s : GState) (ops : List GameOp),
      s.score.player_1_score ≤ (runOps s ops).score.player_1_score ∧
      s.score.player_2_score ≤ (runOps s ops).score.player_2_score) ∧
    (∀ (s : GState) (rdx rdy : Int),
      (gameStep s (GameOp.moveBall rdx rdy)).score ≠ s.score →
      check_collision s.cm (ball_tentative s.ball).toCollidable = {MapEntity.LEFT_WALL} ∨
      check_collision s.cm (ball_tentative s.ball).toCollidable = {MapEntity.RIGHT_WALL}) ∧
    (∀ (s : GState) (op : GameOp), (∀ rdx rdy : Int, op ≠ GameOp.moveBall rdx rdy) →
      (gameStep s op).score = s.score) := by
  refine ⟨?_, ?_, ?_⟩
  · intro s ops
    induction ops generalizing s with
    | nil => exact ⟨le_refl _, le_refl _⟩
    | cons op ops ih =>
        have h1 := gameStep_score_mono s op
        have h2 := ih (gameStep s op)
        have hrun : runOps s (op :: ops) = runOps (gameStep s op) ops := rfl
        rw [hrun]
        exact ⟨le_trans h1.1 h2.1, le_trans h1.2 h2.2⟩
  · intro s rdx rdy hne
    simp only [gameStep] at hne
    cases hmv : s.ball.move s.cm s.score rdx rdy with
    | error e =>
        rw [hmv] at hne
        exact absurd rfl hne
    | ok r =>
        rw [hmv] at hne
        exact (ball_handle_collision_score
          (check_collision s.cm (ball_tentative s.ball).toCollidable)
          (ball_tentative s.ball) s.cm s.score rdx rdy r hmv).2 hne
  · intro s op hop
    cases op with
    | moveLeftPaddle d =>
        simp only [gameStep]
        cases s.left_paddle.move s.cm d <;> rfl
    | moveRightPaddle d =>
        simp only [gameStep]
        cases s.right_paddle.move s.cm d <;> rfl
    | moveBall rdx rdy => exact absurd rfl (hop rdx rdy)
    | resetBall rdx rdy => rfl
    | render => rfl

/-- The game state whose ball `ballLeftW` is one step from the left
wall. -/
def sLeftW : GState :=
  { cm := cm9, left_paddle := pRows2to5, right_paddle := pRows2to5
    ball := ballLeftW, score := ⟨0, 0⟩ }

/-- Witness for C9: the left-wall ball step really changes the score,
and the theorem pins that change on a wall branch. -/
theorem C9_witness :
    check_collision sLeftW.cm (ball_tentative sLeftW.ball).toCollidable =
      {MapEntity.LEFT_WALL} ∨
    check_collision sLeftW.cm (ball_tentative sLeftW.ball).toCollidable =
      {MapEntity.RIGHT_WALL} :=
  C9_score_monotone.2.1 sLeftW 1 1 (by decide)

/-- Claim C6 (spec-modelled): when the ball's horizontal distance to an
autonomous paddle exceeds `board_width/12` the paddle does not move that
tick; when the distance is within the window the decision is exactly one
step toward the ball's committed row — Down if the paddle's vertical
centre is above the ball's row, Up if below, no move if exactly centred. -/
theorem C6_ai_paddle_window (board_width : Nat) (cm : CollisionMap)
    (p : Paddle) (b : Ball) :
    (((board_width / 12 : Nat) : Int) < |b.x - p.x| →
      ai_paddle_tick board_width cm p b = (p, cm)) ∧
    (|b.x - p.x| ≤ ((board_width / 12 : Nat) : Int) →
      ai_paddle_direction board_width p b =
        if p.y + ((p.height : Nat) : Int) / 2 < b.y then some Direction.DOWN
        else if b.y < p.y + ((p.height : Nat) : Int) / 2 then some Direction.UP
        else none) := by
  constructor
  · intro h
    unfold ai_paddle_tick ai_paddle_direction
    rw [if_pos h]
  · intro h
    unfold ai_paddle_direction
    rw [if_neg (not_lt.mpr h)]

/-- The spec's AI scenario ball: sitting at row 8, column 8, far from
the left paddle's column. -/
def ballAI : Ball :=
  { max_y := 9, max_x := 9, x := 8, y := 8, new_x := 0, new_y := 0
    width := 1, height := 1, dx := -1, dy := -1 }

/-- Witness for C6: with a 36-column board the activation window is 3,
the ball at column 8 is 6 away from the paddle at column 2, so the AI
paddle does not move that tick. -/
theorem C6_witness : ai_paddle_tick 36 cm9 pRows2to5 ballAI = (pRows2to5, cm9) :=
  (C6_ai_paddle_window 36 cm9 pRows2to5 ballAI).1 (by decide)

end RetroGames
